import Mathlib

/-!
Verification of the natural-language specification of
`last_project_activity.py` (GCP project activity analyzer) against a
shallow embedding of its code.

Timestamps (`datetime` values in Python) are modelled as `Int` epoch
seconds; all the program's timestamps are timezone-aware UTC datetimes,
so their ordering and subtraction coincide with the ordering and
subtraction of their epoch seconds.  Python exceptions are modelled as
explicit outcome constructors carrying the data the handlers inspect
(HTTP status, `str(e)` message).  Python truthiness of strings (`""` is
falsy) and of `None` is modelled explicitly at each use site.
-/

namespace GcpActivity

/-- Model of Python's `pat in s` substring test: helper comparing the
pattern against the front of the text. -/
def charsStartWith : List Char → List Char → Bool
  | [], _ => true
  | _ :: _, [] => false
  | p :: ps, c :: cs => p == c && charsStartWith ps cs

/-- Model of Python's `pat in s` substring test over character lists. -/
def charsContain (pat : List Char) : List Char → Bool
  | [] => pat.isEmpty
  | c :: cs => charsStartWith pat (c :: cs) || charsContain pat cs

/-- Python's `pat in s` on strings. -/
def containsSub (s pat : String) : Bool :=
  charsContain pat.data s.data

/-- The Activity record built by `get_project_last_activity`
(src/last_project_activity.py lines 152-196): exactly the four keys
set on both the normal and the error path. -/
structure Activity where
  project_id : String
  last_activity_date : Option Int
  activity_source : String
  access_issues : Option String
deriving DecidableEq

/-- One VM instance as read by the Compute probe (lines 75-87): a
creation timestamp, always present, and an optional last-start
timestamp (`if 'lastStartTimestamp' in instance`). -/
structure VmInstance where
  creationTimestamp : Int
  lastStartTimestamp : Option Int
deriving DecidableEq

/-- The running-maximum update `if latest_activity is None or t > latest_activity:
latest_activity = t` used by both resource probes (lines 80-81, 86-87,
108-109, 112-113, 118-119). -/
def updMax (latest : Option Int) (t : Int) : Option Int :=
  match latest with
  | none => some t
  | some l => if t > l then some t else some l

/-- Body of the Compute probe's try block (lines 70-89): fold every
instance's creation time and, when present, last-start time into the
running maximum; the zone grouping of `aggregatedList` is irrelevant to
the fold, so instances are given as one flat list. -/
def computeBody (instances : List VmInstance) : Option Int :=
  instances.foldl
    (fun acc i =>
      let acc1 := updMax acc i.creationTimestamp
      match i.lastStartTimestamp with
      | some t => updMax acc1 t
      | none => acc1)
    none

/-- Outcome of the Compute probe's network body: it either completes
with the listed instances, raises `HttpError` (carrying `e.resp.status`
and `str(e)`), or raises some other exception (carrying `str(e)`). -/
inductive ComputeOutcome
  | ok (instances : List VmInstance)
  | httpError (status : Nat) (msg : String)
  | exn (msg : String)
deriving DecidableEq

/-- `check_compute_last_activity` (lines 65-97): returns the folded
maximum on success; on `HttpError` with status 403 and
`'accessNotConfigured' in str(e)` returns the marker "API not enabled";
on any other failure returns `str(e)`. -/
def check_compute_last_activity : ComputeOutcome → Option Int × Option String
  | .ok instances => (computeBody instances, none)
  | .httpError status msg =>
      if status == 403 && containsSub msg "accessNotConfigured" then
        (none, some "API not enabled")
      else
        (none, some msg)
  | .exn msg => (none, some msg)

/-- One bucket as read by the Storage probe (lines 106-119): creation
time (always compared), optional update time (guarded by truthiness),
and the optional update times of the up-to-10 listed objects. -/
structure Bucket where
  time_created : Int
  updated : Option Int
  blobs : List (Option Int)
deriving DecidableEq

/-- Body of the Storage probe's try block (lines 101-121). -/
def storageBody (buckets : List Bucket) : Option Int :=
  buckets.foldl
    (fun acc b =>
      let a1 := updMax acc b.time_created
      let a2 :=
        match b.updated with
        | some u => updMax a1 u
        | none => a1
      b.blobs.foldl
        (fun a ob =>
          match ob with
          | some u => updMax a u
          | none => a)
        a2)
    none

/-- Outcome of the Storage probe's network body: the probe has a single
`except Exception` handler (line 122), so every exception is handled
uniformly through `str(e)`. -/
inductive StorageOutcome
  | ok (buckets : List Bucket)
  | exn (msg : String)
deriving DecidableEq

/-- `check_storage_last_activity` (lines 99-126): on any exception whose
message contains `accessNotConfigured` returns the marker, otherwise the
message; no HTTP status is consulted. -/
def check_storage_last_activity : StorageOutcome → Option Int × Option String
  | .ok buckets => (storageBody buckets, none)
  | .exn msg =>
      if containsSub msg "accessNotConfigured" then
        (none, some "API not enabled")
      else
        (none, some msg)

/-- Outcome of the Service-Usage probe's network body (lines 131-140):
on success the only data consulted is whether `'services'` is in the
response (any enabled services exist) and the current wall-clock time. -/
inductive ApiOutcome
  | ok (hasServices : Bool) (now : Int)
  | httpError (status : Nat) (msg : String)
  | exn (msg : String)
deriving DecidableEq

/-- `check_api_usage_last_activity` (lines 128-148): returns the current
time iff enabled services exist; error classification as in the Compute
probe. -/
def check_api_usage_last_activity : ApiOutcome → Option Int × Option String
  | .ok hasServices now =>
      if hasServices then (some now, none) else (none, none)
  | .httpError status msg =>
      if status == 403 && containsSub msg "accessNotConfigured" then
        (none, some "API not enabled")
      else
        (none, some msg)
  | .exn msg => (none, some msg)

/-- The fold `if ts and (last_activity_date is None or ts > last_activity_date):
last_activity_date = ts; activity_source = src` shared by the three
probe results in the aggregator (lines 163-165, 170-172, 179-181); the
current state is the pair (date, source).  A datetime is always truthy
in Python, so the truthiness test on `ts` is `Option.isSome`. -/
def foldProbe (cur : Option Int × String) (ts : Option Int) (src : String) :
    Option Int × String :=
  match ts with
  | none => cur
  | some t =>
      match cur.1 with
      | none => (some t, src)
      | some l => if t > l then (some t, src) else cur

/-- The guarded append `if err: access_issues.append(pre + err)`
(lines 161-162, 168-169, 177-178); a Python string is falsy exactly
when it is empty, so an empty error message is skipped. -/
def appendIssue (issues : List String) (pre : String) (err : Option String) :
    List String :=
  match err with
  | some e => if e = "" then issues else issues ++ [pre ++ e]
  | none => issues

/-- Python's `"; ".join(lst)` (line 186). -/
def joinSemi : List String → String
  | [] => ""
  | [x] => x
  | x :: xs => x ++ "; " ++ joinSemi xs

/-- The happy-path body of `get_project_last_activity` (lines 152-188),
as a function of the three probe results: fold Compute and Storage into
the running (date, source) pair, invoke the Service-Usage result only
when the date is still `None`, and join the collected issue strings. -/
def aggregateResults (project_id : String)
    (cr sr ar : Option Int × Option String) : Activity :=
  let issues1 := appendIssue [] "Compute: " cr.2
  let st1 := foldProbe (none, "None") cr.1 "Compute Engine"
  let issues2 := appendIssue issues1 "Storage: " sr.2
  let st2 := foldProbe st1 sr.1 "Cloud Storage"
  if st2.1 = none then
    let issues3 := appendIssue issues2 "API: " ar.2
    let st3 := foldProbe st2 ar.1 "API Usage"
    { project_id := project_id, last_activity_date := st3.1,
      activity_source := st3.2,
      access_issues := if issues3 = [] then none else some (joinSemi issues3) }
  else
    { project_id := project_id, last_activity_date := st2.1,
      activity_source := st2.2,
      access_issues := if issues2 = [] then none else some (joinSemi issues2) }

/-- The list of issue strings collected by the aggregator, in collection
order: Compute then Storage, then — only when the probes left the date
`None` — the Service-Usage issue. -/
def aggIssuesR (cr sr ar : Option Int × Option String) : List String :=
  let issues2 := appendIssue (appendIssue [] "Compute: " cr.2) "Storage: " sr.2
  if (foldProbe (foldProbe (none, "None") cr.1 "Compute Engine") sr.1
      "Cloud Storage").1 = none then
    appendIssue issues2 "API: " ar.2
  else
    issues2

/-- `get_project_last_activity` (lines 150-196).  `raised = some msg`
models an unexpected exception escaping the aggregation sequence and
being caught by the function's top-level handler (lines 189-196), with
`msg = str(e)`; `raised = none` is the normal path. -/
def get_project_last_activity (project_id : String) (raised : Option String)
    (co : ComputeOutcome) (so : StorageOutcome) (ao : ApiOutcome) : Activity :=
  match raised with
  | some msg =>
      { project_id := project_id, last_activity_date := none,
        activity_source := "Error", access_issues := some msg }
  | none =>
      aggregateResults project_id (check_compute_last_activity co)
        (check_storage_last_activity so) (check_api_usage_last_activity ao)

/-- Second component of the Python sort key
`x['last_activity_date'] if x['last_activity_date'] else datetime.datetime.min`
(line 280): `none` stands for `datetime.min`, which is below every real
timestamp.  This is the ordering test used when tuple comparison reaches
the second components. -/
def optLE : Option Int → Option Int → Bool
  | none, _ => true
  | some _, none => false
  | some a, some b => a ≤ b

/-- The sort key of `main`'s sort (lines 279-280):
`(x['last_activity_date'] is None, x['last_activity_date'] or datetime.min)`. -/
def sortKey (a : Activity) : Bool × Option Int :=
  (a.last_activity_date.isNone, a.last_activity_date)

/-- Python's lexicographic comparison of the key tuples, with
`False < True` on the first components. -/
def keyLE (k1 k2 : Bool × Option Int) : Bool :=
  if k1.1 = k2.1 then optLE k1.2 k2.2 else k2.1

/-- Stable descending insertion: place `x` before the first element
whose key is less than or equal to `x`'s key. -/
def insertDesc (x : Activity) : List Activity → List Activity
  | [] => [x]
  | y :: ys =>
      if keyLE (sortKey y) (sortKey x) then x :: y :: ys
      else y :: insertDesc x ys

/-- The sort performed by `main` (lines 278-281):
`projects_activity.sort(key=..., reverse=True)`, i.e. a stable sort
placing larger key tuples first. -/
def sortActivitiesDesc : List Activity → List Activity
  | [] => []
  | x :: xs => insertDesc x (sortActivitiesDesc xs)

/-- Value of one spreadsheet cell as written by `write_to_excel`: a
string, an integer (the days-since-activity count, line 225), or the
`None` an openpyxl cell holds when it was never written (the Access
Issues cell of a row without issues). -/
inductive CellValue
  | str (s : String)
  | int (n : Int)
  | empty
deriving DecidableEq

/-- Civil date (year, month, day) of a day count from 1970-01-01,
proleptic Gregorian; this is the standard days-to-civil conversion and
models the date fields Python's `datetime` exposes to `strftime` for a
UTC datetime at the given epoch day. -/
def civilFromDays (z0 : Int) : Int × Int × Int :=
  let z := z0 + 719468
  let era := Int.fdiv z 146097
  let doe := z - era * 146097
  let yoe :=
    Int.fdiv (doe - Int.fdiv doe 1460 + Int.fdiv doe 36524 - Int.fdiv doe 146096) 365
  let y := yoe + era * 400
  let doy := doe - (365 * yoe + Int.fdiv yoe 4 - Int.fdiv yoe 100)
  let mp := Int.fdiv (5 * doy + 2) 153
  let d := doy - Int.fdiv (153 * mp + 2) 5 + 1
  let m := mp + (if mp < 10 then 3 else -9)
  (y + (if m ≤ 2 then 1 else 0), m, d)

/-- Zero-padding to two digits, as `strftime` does for `%m %d %H %M %S`. -/
def pad2 (n : Int) : String :=
  if 0 ≤ n ∧ n < 10 then "0" ++ toString n else toString n

/-- Zero-padding to four digits, as `strftime` does for `%Y`. -/
def pad4 (n : Int) : String :=
  if 0 ≤ n ∧ n < 10 then "000" ++ toString n
  else if 0 ≤ n ∧ n < 100 then "00" ++ toString n
  else if 0 ≤ n ∧ n < 1000 then "0" ++ toString n
  else toString n

/-- Python's `activity_date.strftime('%Y-%m-%d %H:%M:%S')` (line 221)
for a UTC datetime with epoch seconds `t`. -/
def formatTimestamp (t : Int) : String :=
  let days := Int.fdiv t 86400
  let secs := Int.fmod t 86400
  let ymd := civilFromDays days
  let h := Int.fdiv secs 3600
  let mi := Int.fdiv (Int.fmod secs 3600) 60
  let s := Int.fmod secs 60
  pad4 ymd.1 ++ "-" ++ pad2 ymd.2.1 ++ "-" ++ pad2 ymd.2.2 ++ " " ++
    pad2 h ++ ":" ++ pad2 mi ++ ":" ++ pad2 s

/-- Python's `(now - activity_date).days` (line 224): `timedelta.days`
is the floor of the difference in whole days. -/
def daysSince (now d : Int) : Int :=
  Int.fdiv (now - d) 86400

/-- The five cells `write_to_excel` writes for one record (lines
216-233), in column order 1..5: project id; formatted date or
"No activity found"; activity source; integer day count or "N/A";
the access-issues string, written only when present and truthy. -/
def reportRow (now : Int) (p : Activity) : List CellValue :=
  [ CellValue.str p.project_id,
    (match p.last_activity_date with
     | some d => CellValue.str (formatTimestamp d)
     | none => CellValue.str "No activity found"),
    CellValue.str p.activity_source,
    (match p.last_activity_date with
     | some d => CellValue.int (daysSince now d)
     | none => CellValue.str "N/A"),
    (match p.access_issues with
     | some s => if s = "" then CellValue.empty else CellValue.str s
     | none => CellValue.empty) ]

/-- The header row (line 205). -/
def headers : List String :=
  ["Project ID", "Last Activity Date", "Activity Source",
   "Days Since Activity", "Access Issues"]

/-- The five columns of the written sheet, each a header cell followed
by the rows' cells for that column; this is what the width-adjustment
loop (lines 239-249) iterates over. -/
def sheetColumns (now : Int) (ps : List Activity) : List (List CellValue) :=
  (List.range 5).map fun j =>
    CellValue.str (headers.getD j "") ::
      ps.map fun p => (reportRow now p).getD j CellValue.empty

/-- `len(str(cell.value))` (line 244): `str` of a Python int is its
decimal rendering and `str(None)` is the 4-character "None". -/
def lenStr : CellValue → Nat
  | .str s => s.length
  | .int n => (toString n).length
  | .empty => 4

/-- One iteration of the width loop (lines 243-247): the comparison
uses `len(str(cell.value))` but the assignment uses `len(cell.value)`,
which raises `TypeError` for non-string values; the bare `except: pass`
swallows the error and leaves the maximum unchanged. -/
def widthStep (m : Nat) (c : CellValue) : Nat :=
  if lenStr c > m then
    match c with
    | .str s => s.length
    | _ => m
  else m

/-- `adjusted_width = max_length + 2` for one column (lines 240-248). -/
def adjustedWidth (cells : List CellValue) : Nat :=
  cells.foldl widthStep 0 + 2

/-- Rendered length of a cell value as the spec's words mean it: the
length of what the cell displays (an unwritten cell displays nothing). -/
def renderedLen : CellValue → Nat
  | .str s => s.length
  | .int n => (toString n).length
  | .empty => 0

/-- Column width as the spec's words describe it: length of the longest
rendered cell value plus the 2-character margin.  Stated from the spec
for comparison with `adjustedWidth`, which is the code's computation. -/
def specRenderedWidth (cells : List CellValue) : Nat :=
  (cells.map renderedLen).foldl max 0 + 2

/-- Length of the longest string-typed cell of a column: this is what
the code's width pass actually measures, because non-string cells are
skipped via the swallowed `TypeError`. -/
def maxStrLen (cells : List CellValue) : Nat :=
  (cells.filterMap fun c =>
    match c with
    | CellValue.str s => some s.length
    | _ => none).foldl max 0

/-- Epoch seconds of Python's `datetime.min` (0001-01-01 00:00:00): the
smallest timestamp a Python datetime — hence any date this program
handles — can carry. -/
def pyMinTimestamp : Int := -62135596800

/-- Epoch seconds of Python's `datetime.max` truncated to seconds
(9999-12-31 23:59:59): the largest timestamp a Python datetime can
carry. -/
def pyMaxTimestamp : Int := 253402300799

/-- The issue list of the whole per-project aggregation, from the probe
outcomes. -/
def collectedIssues (co : ComputeOutcome) (so : StorageOutcome) (ao : ApiOutcome) :
    List String :=
  aggIssuesR (check_compute_last_activity co) (check_storage_last_activity so)
    (check_api_usage_last_activity ao)

/-- Whether the Compute probe's outcome is the access-denied condition
its `HttpError` handler singles out (line 91). -/
def computeAccessDenied : ComputeOutcome → Bool
  | .httpError status msg => status == 403 && containsSub msg "accessNotConfigured"
  | _ => false

/-- The `str(e)` message of a failing Compute outcome. -/
def computeFailMsg : ComputeOutcome → Option String
  | .ok _ => none
  | .httpError _ msg => some msg
  | .exn msg => some msg

/-- Whether the Storage probe's outcome is the access-denied condition
its handler singles out (line 123): a substring test only. -/
def storageAccessDenied : StorageOutcome → Bool
  | .exn msg => containsSub msg "accessNotConfigured"
  | _ => false

/-- The `str(e)` message of a failing Storage outcome. -/
def storageFailMsg : StorageOutcome → Option String
  | .ok _ => none
  | .exn msg => some msg

/-- Whether the Service-Usage probe's outcome is the access-denied
condition its `HttpError` handler singles out (line 142). -/
def apiAccessDenied : ApiOutcome → Bool
  | .httpError status msg => status == 403 && containsSub msg "accessNotConfigured"
  | _ => false

/-- The `str(e)` message of a failing Service-Usage outcome. -/
def apiFailMsg : ApiOutcome → Option String
  | .ok _ _ => none
  | .httpError _ msg => some msg
  | .exn msg => some msg

/-! Helper lemmas shared across the claim proofs. -/

/-- A probe that reported an error reported no timestamp (every handler
returns `(None, msg)`). -/
theorem compute_err_no_ts (co : ComputeOutcome) (e : String)
    (h : (check_compute_last_activity co).2 = some e) :
    (check_compute_last_activity co).1 = none := by
  cases co with
  | ok instances => simp [check_compute_last_activity] at h
  | httpError status msg =>
      simp only [check_compute_last_activity]
      split <;> rfl
  | exn msg => rfl

/-- Membership survives the guarded append. -/
theorem mem_appendIssue (l : List String) (pre : String) (err : Option String)
    (x : String) (h : x ∈ l) : x ∈ appendIssue l pre err := by
  cases err with
  | none => exact h
  | some e =>
      by_cases he : e = ""
      · simpa [appendIssue, he] using h
      · simp [appendIssue, he]
        exact Or.inl h

/-- A truthy error is appended, carrying its source name as a prefix. -/
theorem self_mem_appendIssue (l : List String) (pre e : String) (he : e ≠ "") :
    (pre ++ e) ∈ appendIssue l pre (some e) := by
  unfold appendIssue
  simp [he]

/-- Elements added by the guarded append keep a positive length as long
as the source-name prefix has one. -/
theorem appendIssue_pos (l : List String) (pre : String) (err : Option String)
    (hl : ∀ x ∈ l, 0 < x.length) (hp : 0 < pre.length) :
    ∀ x ∈ appendIssue l pre err, 0 < x.length := by
  intro x hx
  cases err with
  | none => exact hl x hx
  | some e =>
      by_cases he : e = ""
      · simp only [appendIssue, he, if_pos] at hx
        exact hl x hx
      · simp only [appendIssue, he, if_neg, not_false_iff] at hx
        rcases List.mem_append.1 hx with h | h
        · exact hl x h
        · simp only [List.mem_singleton] at h
          subst h
          simp only [String.length_append]
          omega

/-- Joining a non-empty list of positive-length strings with "; " gives
a positive-length string. -/
theorem joinSemi_pos (l : List String) (hl : ∀ x ∈ l, 0 < x.length)
    (hne : l ≠ []) : 0 < (joinSemi l).length := by
  match l with
  | [x] =>
      have := hl x (by simp)
      simpa [joinSemi] using this
  | x :: y :: ys =>
      have := hl x (by simp)
      simp only [joinSemi, String.length_append]
      omega

/-- A string of positive length is not the empty string. -/
theorem ne_empty_of_pos (s : String) (h : 0 < s.length) : s ≠ "" := by
  intro he
  subst he
  simp at h

/-! C1.  The spec says the Report Writer sorts descending by
`last_activity_date` with missing dates placed after all real dates.
The code (lines 278-281) sorts with key
`(date is None, date or datetime.min)` and `reverse=True`; since
`True > False`, the records with a missing date get the LARGEST keys and
are placed first, not last.  The spec describes the evident intent (the
key maps a missing date to `datetime.min`, below every real date,
precisely so that it loses), so this is recorded as a code bug. -/

/-- C1: evaluating the code's sort at the spec's own example input
[2024-01-01, null, 2025-06-01] (epoch seconds 1704067200 and
1748736000): the record without a date sorts FIRST, giving
[null, 2025-06-01, 2024-01-01] where the claim requires
[2025-06-01, 2024-01-01, null]. -/
theorem c1_sort_places_missing_dates_first :
    sortActivitiesDesc
      [{ project_id := "a", last_activity_date := some 1704067200,
         activity_source := "Compute Engine", access_issues := none },
       { project_id := "b", last_activity_date := none,
         activity_source := "None", access_issues := none },
       { project_id := "c", last_activity_date := some 1748736000,
         activity_source := "Cloud Storage", access_issues := none }] =
      [{ project_id := "b", last_activity_date := none,
         activity_source := "None", access_issues := none },
       { project_id := "c", last_activity_date := some 1748736000,
         activity_source := "Cloud Storage", access_issues := none },
       { project_id := "a", last_activity_date := some 1704067200,
         activity_source := "Compute Engine", access_issues := none }] := by
  decide

/-- C3: each probe converts every failing outcome into returned data:
the access-denied condition its handler singles out yields the marker
"API not enabled", any other failure yields the exception's message, and
a successful body yields no error string; in every failing case the
timestamp is `None`. -/
theorem c3_probes_capture_failures (co : ComputeOutcome) (so : StorageOutcome)
    (ao : ApiOutcome) :
    (computeAccessDenied co = true →
       check_compute_last_activity co = (none, some "API not enabled")) ∧
    (computeAccessDenied co = false → ∀ m, computeFailMsg co = some m →
       check_compute_last_activity co = (none, some m)) ∧
    (computeFailMsg co = none → (check_compute_last_activity co).2 = none) ∧
    (storageAccessDenied so = true →
       check_storage_last_activity so = (none, some "API not enabled")) ∧
    (storageAccessDenied so = false → ∀ m, storageFailMsg so = some m →
       check_storage_last_activity so = (none, some m)) ∧
    (storageFailMsg so = none → (check_storage_last_activity so).2 = none) ∧
    (apiAccessDenied ao = true →
       check_api_usage_last_activity ao = (none, some "API not enabled")) ∧
    (apiAccessDenied ao = false → ∀ m, apiFailMsg ao = some m →
       check_api_usage_last_activity ao = (none, some m)) ∧
    (apiFailMsg ao = none → (check_api_usage_last_activity ao).2 = none) := by
  refine ⟨?_, ?_, ?_, ?_, ?_, ?_, ?_, ?_, ?_⟩
  · intro h
    cases co with
    | ok instances => simp [computeAccessDenied] at h
    | httpError status msg =>
        simp only [computeAccessDenied] at h
        simp [check_compute_last_activity, h]
    | exn msg => simp [computeAccessDenied] at h
  · intro h m hm
    cases co with
    | ok instances => simp [computeFailMsg] at hm
    | httpError status msg =>
        simp only [computeAccessDenied] at h
        simp only [computeFailMsg, Option.some.injEq] at hm
        subst hm
        simp [check_compute_last_activity, h]
    | exn msg =>
        simp only [computeFailMsg, Option.some.injEq] at hm
        subst hm
        rfl
  · intro h
    cases co with
    | ok instances => rfl
    | httpError status msg => simp [computeFailMsg] at h
    | exn msg => simp [computeFailMsg] at h
  · intro h
    cases so with
    | ok buckets => simp [storageAccessDenied] at h
    | exn msg =>
        simp only [storageAccessDenied] at h
        simp [check_storage_last_activity, h]
  · intro h m hm
    cases so with
    | ok buckets => simp [storageFailMsg] at hm
    | exn msg =>
        simp only [storageAccessDenied] at h
        simp only [storageFailMsg, Option.some.injEq] at hm
        subst hm
        simp [check_storage_last_activity, h]
  · intro h
    cases so with
    | ok buckets => rfl
    | exn msg => simp [storageFailMsg] at h
  · intro h
    cases ao with
    | ok hasServices now => simp [apiAccessDenied] at h
    | httpError status msg =>
        simp only [apiAccessDenied] at h
        simp [check_api_usage_last_activity, h]
    | exn msg => simp [apiAccessDenied] at h
  · intro h m hm
    cases ao with
    | ok hasServices now => simp [apiFailMsg] at hm
    | httpError status msg =>
        simp only [apiAccessDenied] at h
        simp only [apiFailMsg, Option.some.injEq] at hm
        subst hm
        simp [check_api_usage_last_activity, h]
    | exn msg =>
        simp only [apiFailMsg, Option.some.injEq] at hm
        subst hm
        rfl
  · intro h
    cases ao with
    | ok hasServices now =>
        simp only [check_api_usage_last_activity]
        split <;> rfl
    | httpError status msg => simp [apiFailMsg] at h
    | exn msg => simp [apiFailMsg] at h

/-- Witness for C3 at concrete outcomes: a 403 accessNotConfigured
HttpError gives the marker, a generic exception gives its message, a
Storage exception mentioning accessNotConfigured gives the marker. -/
theorem c3_probes_capture_failures_witness :
    check_compute_last_activity (ComputeOutcome.httpError 403 "x accessNotConfigured y") =
      (none, some "API not enabled") ∧
    check_compute_last_activity (ComputeOutcome.exn "boom") = (none, some "boom") ∧
    check_storage_last_activity (StorageOutcome.exn "z accessNotConfigured w") =
      (none, some "API not enabled") ∧
    check_api_usage_last_activity (ApiOutcome.exn "oops") = (none, some "oops") := by
  refine ⟨?_, ?_, ?_, ?_⟩
  · exact (c3_probes_capture_failures (.httpError 403 "x accessNotConfigured y")
      (.ok []) (.ok false 0)).1 (by decide)
  · exact (c3_probes_capture_failures (.exn "boom") (.ok []) (.ok false 0)).2.1
      (by decide) "boom" rfl
  · exact (c3_probes_capture_failures (.ok []) (.exn "z accessNotConfigured w")
      (.ok false 0)).2.2.2.1 (by decide)
  · exact (c3_probes_capture_failures (.ok []) (.ok [])
      (.exn "oops")).2.2.2.2.2.2.2.1 (by decide) "oops" rfl

/-- The winning source is "None" exactly when no probe result carried a
timestamp (and then the date is null), and is never "Error" on the
normal path. -/
theorem aggregate_source_classification (pid : String)
    (c s a : Option Int × Option String) :
    ((aggregateResults pid c s a).activity_source = "None" ↔
      (aggregateResults pid c s a).last_activity_date = none ∧
        c.1 = none ∧ s.1 = none ∧ a.1 = none) ∧
    (aggregateResults pid c s a).activity_source ≠ "Error" := by
  obtain ⟨c1, c2⟩ := c
  obtain ⟨s1, s2⟩ := s
  obtain ⟨a1, a2⟩ := a
  cases c1 <;> cases s1 <;> cases a1 <;>
    simp [aggregateResults, foldProbe, appendIssue] <;>
    split_ifs <;> simp_all

/-- When Compute or Storage yielded a timestamp, the aggregation result
does not depend on the Service-Usage probe at all. -/
theorem agg_api_unused (pid : String) (c s a a' : Option Int × Option String)
    (h : c.1 ≠ none ∨ s.1 ≠ none) :
    aggregateResults pid c s a = aggregateResults pid c s a' := by
  obtain ⟨c1, c2⟩ := c
  obtain ⟨s1, s2⟩ := s
  have hne : (foldProbe (foldProbe (none, "None") c1 "Compute Engine") s1
      "Cloud Storage").1 ≠ none := by
    cases c1 with
    | none =>
        cases s1 with
        | none => simp_all
        | some t => simp [foldProbe]
    | some t =>
        cases s1 with
        | none => simp [foldProbe]
        | some u =>
            simp only [foldProbe]
            split_ifs <;> simp
  simp [aggregateResults, hne]

/-- When neither Compute nor Storage yielded a timestamp and the
Service-Usage result carries one, it becomes the record's date with
source "API Usage". -/
theorem agg_api_wins (pid : String) (c s a : Option Int × Option String) (t : Int)
    (hc : c.1 = none) (hs : s.1 = none) (ht : a.1 = some t) :
    (aggregateResults pid c s a).last_activity_date = some t ∧
      (aggregateResults pid c s a).activity_source = "API Usage" := by
  obtain ⟨c1, c2⟩ := c
  obtain ⟨s1, s2⟩ := s
  obtain ⟨a1, a2⟩ := a
  simp at hc hs ht
  subst hc hs ht
  simp [aggregateResults, foldProbe]

/-- When both Compute and Storage yielded timestamps, Storage wins only
under the strict comparison `storage_activity > last_activity_date`. -/
theorem agg_compute_storage (pid : String) (c s a : Option Int × Option String)
    (tc ts : Int) (hc : c.1 = some tc) (hs : s.1 = some ts) :
    (ts ≤ tc →
       (aggregateResults pid c s a).activity_source = "Compute Engine" ∧
       (aggregateResults pid c s a).last_activity_date = some tc) ∧
    (tc < ts →
       (aggregateResults pid c s a).activity_source = "Cloud Storage" ∧
       (aggregateResults pid c s a).last_activity_date = some ts) := by
  obtain ⟨c1, c2⟩ := c
  obtain ⟨s1, s2⟩ := s
  simp at hc hs
  subst hc hs
  constructor
  · intro hle
    have hng : ¬ (ts > tc) := by omega
    simp [aggregateResults, foldProbe, hng]
  · intro hlt
    have hg : ts > tc := by omega
    simp [aggregateResults, foldProbe, hg]

/-- C2: on every path, `activity_source` is "None" exactly when the
record's date is null, no exception escaped, and no probe returned a
timestamp; and it is "Error" exactly when the aggregation step itself
raised an unexpected exception. -/
theorem c2_activity_source_invariant (pid : String) (raised : Option String)
    (co : ComputeOutcome) (so : StorageOutcome) (ao : ApiOutcome) :
    ((get_project_last_activity pid raised co so ao).activity_source = "None" ↔
       (get_project_last_activity pid raised co so ao).last_activity_date = none ∧
         raised = none ∧
         (check_compute_last_activity co).1 = none ∧
         (check_storage_last_activity so).1 = none ∧
         (check_api_usage_last_activity ao).1 = none) ∧
    ((get_project_last_activity pid raised co so ao).activity_source = "Error" ↔
       raised ≠ none) := by
  cases raised with
  | some msg => simp [get_project_last_activity]
  | none =>
      have h := aggregate_source_classification pid (check_compute_last_activity co)
        (check_storage_last_activity so) (check_api_usage_last_activity ao)
      simp only [get_project_last_activity]
      constructor
      · rw [h.1]
        simp
      · simp [h.2]

/-- Witness for C2: with no exception and all three probes yielding no
timestamp, the record's source is "None". -/
theorem c2_activity_source_invariant_witness :
    (get_project_last_activity "p" none (ComputeOutcome.ok []) (StorageOutcome.ok [])
      (ApiOutcome.ok false 0)).activity_source = "None" := by
  exact (c2_activity_source_invariant "p" none (.ok []) (.ok [])
    (.ok false 0)).1.mpr ⟨rfl, rfl, rfl, rfl, rfl⟩

/-- C4: the Service-Usage probe is consulted only when neither Compute
nor Storage yielded a timestamp (the result is independent of it
otherwise); when consulted and it carries a timestamp, that timestamp
wins with source "API Usage"; and on success it returns the current
wall-clock time exactly when enabled services exist. -/
theorem c4_probe_order_api_fallback (pid : String) (co : ComputeOutcome)
    (so : StorageOutcome) (ao ao' : ApiOutcome) (t now : Int) (b : Bool) :
    (((check_compute_last_activity co).1 ≠ none ∨
        (check_storage_last_activity so).1 ≠ none) →
      get_project_last_activity pid none co so ao =
        get_project_last_activity pid none co so ao') ∧
    ((check_compute_last_activity co).1 = none →
      (check_storage_last_activity so).1 = none →
      (check_api_usage_last_activity ao).1 = some t →
      (get_project_last_activity pid none co so ao).last_activity_date = some t ∧
        (get_project_last_activity pid none co so ao).activity_source = "API Usage") ∧
    (check_api_usage_last_activity (ApiOutcome.ok b now)).1 =
      (if b then some now else none) := by
  refine ⟨?_, ?_, ?_⟩
  · intro h
    exact agg_api_unused pid _ _ _ _ h
  · intro hc hs ht
    exact agg_api_wins pid _ _ _ t hc hs ht
  · cases b <;> rfl

/-- Witness for C4: a Compute timestamp makes the record independent of
the Service-Usage outcome, and with both resource probes empty an
enabled-services response of "now = 42" wins as "API Usage". -/
theorem c4_probe_order_api_fallback_witness :
    (get_project_last_activity "p" none (ComputeOutcome.ok [VmInstance.mk 5 none]) (StorageOutcome.ok [])
        (ApiOutcome.ok true 99) =
      get_project_last_activity "p" none (ComputeOutcome.ok [VmInstance.mk 5 none])
        (StorageOutcome.ok []) (ApiOutcome.exn "x")) ∧
    (get_project_last_activity "q" none (ComputeOutcome.ok []) (StorageOutcome.ok [])
        (ApiOutcome.ok true 42)).last_activity_date = some 42 ∧
    (get_project_last_activity "q" none (ComputeOutcome.ok []) (StorageOutcome.ok [])
        (ApiOutcome.ok true 42)).activity_source = "API Usage" := by
  refine ⟨?_, ?_⟩
  · exact (c4_probe_order_api_fallback "p" (.ok [VmInstance.mk 5 none]) (.ok [])
      (.ok true 99) (.exn "x") 0 0 true).1 (Or.inl (by decide))
  · exact (c4_probe_order_api_fallback "q" (.ok []) (.ok []) (.ok true 42)
      (.ok true 42) 42 0 true).2.1 (by decide) (by decide) (by decide)

/-- C5: with both Compute and Storage timestamps present, the strict
greater-than comparison keeps the earlier-checked source: Storage takes
over only when its timestamp is strictly larger, so on an exact tie the
record keeps "Compute Engine". -/
theorem c5_strict_gt_keeps_earlier_source (pid : String) (co : ComputeOutcome)
    (so : StorageOutcome) (ao : ApiOutcome) (tc ts : Int)
    (hc : (check_compute_last_activity co).1 = some tc)
    (hs : (check_storage_last_activity so).1 = some ts) :
    (ts ≤ tc →
       (get_project_last_activity pid none co so ao).activity_source = "Compute Engine" ∧
       (get_project_last_activity pid none co so ao).last_activity_date = some tc) ∧
    (tc < ts →
       (get_project_last_activity pid none co so ao).activity_source = "Cloud Storage" ∧
       (get_project_last_activity pid none co so ao).last_activity_date = some ts) :=
  agg_compute_storage pid _ _ _ tc ts hc hs

/-- Witness for C5: both probes report the exactly equal timestamp 9;
the record keeps source "Compute Engine". -/
theorem c5_strict_gt_keeps_earlier_source_witness :
    (get_project_last_activity "p" none
        (ComputeOutcome.ok [VmInstance.mk 9 none])
        (StorageOutcome.ok [Bucket.mk 9 none []])
        (ApiOutcome.ok false 0)).activity_source = "Compute Engine" ∧
    (get_project_last_activity "p" none
        (ComputeOutcome.ok [VmInstance.mk 9 none])
        (StorageOutcome.ok [Bucket.mk 9 none []])
        (ApiOutcome.ok false 0)).last_activity_date = some 9 := by
  exact (c5_strict_gt_keeps_earlier_source "p" (.ok [VmInstance.mk 9 none])
    (.ok [Bucket.mk 9 none []])
    (.ok false 0) 9 9 (by decide) (by decide)).1 (by omega)

/-- Folding two absent timestamps leaves the running date `None`. -/
theorem fold_two_none (c1 s1 : Option Int) (hc : c1 = none) (hs : s1 = none) :
    (foldProbe (foldProbe (none, "None") c1 "Compute Engine") s1
      "Cloud Storage").1 = none := by
  subst hc hs
  rfl

/-- The record's `access_issues` field is exactly the "; "-join of the
collected issue list, or `None` when that list is empty. -/
theorem agg_access_issues_join (pid : String) (c s a : Option Int × Option String) :
    (aggregateResults pid c s a).access_issues =
      (if aggIssuesR c s a = [] then none else some (joinSemi (aggIssuesR c s a))) := by
  by_cases hst : (foldProbe (foldProbe (none, "None") c.1 "Compute Engine") s.1
      "Cloud Storage").1 = none <;>
    simp [aggregateResults, aggIssuesR, hst]

/-- A truthy Compute error string is collected with its prefix. -/
theorem mem_compute_issue (c s a : Option Int × Option String) (e : String)
    (h : c.2 = some e) (he : e ≠ "") :
    ("Compute: " ++ e) ∈ aggIssuesR c s a := by
  have h1 : ("Compute: " ++ e) ∈ appendIssue [] "Compute: " c.2 := by
    rw [h]
    exact self_mem_appendIssue [] _ e he
  have h2 := mem_appendIssue _ "Storage: " s.2 _ h1
  unfold aggIssuesR
  split
  · exact mem_appendIssue _ "API: " a.2 _ h2
  · exact h2

/-- A truthy Storage error string is collected with its prefix. -/
theorem mem_storage_issue (c s a : Option Int × Option String) (e : String)
    (h : s.2 = some e) (he : e ≠ "") :
    ("Storage: " ++ e) ∈ aggIssuesR c s a := by
  have h2 : ("Storage: " ++ e) ∈
      appendIssue (appendIssue [] "Compute: " c.2) "Storage: " s.2 := by
    rw [h]
    exact self_mem_appendIssue _ _ e he
  unfold aggIssuesR
  split
  · exact mem_appendIssue _ "API: " a.2 _ h2
  · exact h2

/-- A truthy Service-Usage error string is collected with its prefix
whenever that probe was consulted. -/
theorem mem_api_issue (c s a : Option Int × Option String) (e : String)
    (hc : c.1 = none) (hs : s.1 = none) (h : a.2 = some e) (he : e ≠ "") :
    ("API: " ++ e) ∈ aggIssuesR c s a := by
  unfold aggIssuesR
  rw [if_pos (fold_two_none c.1 s.1 hc hs)]
  rw [h]
  exact self_mem_appendIssue _ _ e he

/-- An error in the Compute probe does not suppress a Storage
timestamp: with no Compute timestamp, a Storage timestamp wins. -/
theorem agg_no_overwrite (pid : String) (c s a : Option Int × Option String) (t : Int)
    (hc : c.1 = none) (hs : s.1 = some t) :
    (aggregateResults pid c s a).last_activity_date = some t ∧
      (aggregateResults pid c s a).activity_source = "Cloud Storage" := by
  obtain ⟨c1, c2⟩ := c
  obtain ⟨s1, s2⟩ := s
  simp at hc hs
  subst hc hs
  simp [aggregateResults, foldProbe]

/-- C6 counterexample: the Compute probe returns the error string ""
(the `str(e)` of an exception with an empty message), but because
`if compute_error:` is a truthiness test and "" is falsy, nothing at all
is recorded: `access_issues` is `None` and no "Compute: "-prefixed entry
appears, contradicting the claim that EVERY returned error string
appears in `access_issues`. -/
theorem c6_empty_error_string_dropped :
    (check_compute_last_activity (ComputeOutcome.exn "")).2 = some "" ∧
    (get_project_last_activity "p" none (ComputeOutcome.exn "") (StorageOutcome.ok [])
       (ApiOutcome.ok false 0)).access_issues = none := by
  decide

/-- C6 as amended: every NON-EMPTY error string returned by an invoked
probe is collected, prefixed by its source name, into the issue list
whose "; "-join (or `None` when empty) is the record's `access_issues`;
and an error from the Compute probe never overwrites or suppresses a
timestamp obtained from the Storage probe. -/
theorem c6_issue_collection (pid : String) (co : ComputeOutcome)
    (so : StorageOutcome) (ao : ApiOutcome) (e : String) (t : Int) :
    ((get_project_last_activity pid none co so ao).access_issues =
       (if collectedIssues co so ao = [] then none
        else some (joinSemi (collectedIssues co so ao)))) ∧
    ((check_compute_last_activity co).2 = some e → e ≠ "" →
       ("Compute: " ++ e) ∈ collectedIssues co so ao) ∧
    ((check_storage_last_activity so).2 = some e → e ≠ "" →
       ("Storage: " ++ e) ∈ collectedIssues co so ao) ∧
    ((check_compute_last_activity co).1 = none →
       (check_storage_last_activity so).1 = none →
       (check_api_usage_last_activity ao).2 = some e → e ≠ "" →
       ("API: " ++ e) ∈ collectedIssues co so ao) ∧
    ((check_compute_last_activity co).2 = some e →
       (check_storage_last_activity so).1 = some t →
       (get_project_last_activity pid none co so ao).last_activity_date = some t ∧
       (get_project_last_activity pid none co so ao).activity_source =
         "Cloud Storage") := by
  refine ⟨?_, ?_, ?_, ?_, ?_⟩
  · exact agg_access_issues_join pid _ _ _
  · intro h he
    exact mem_compute_issue _ _ _ e h he
  · intro h he
    exact mem_storage_issue _ _ _ e h he
  · intro hc hs h he
    exact mem_api_issue _ _ _ e hc hs h he
  · intro h hs
    exact agg_no_overwrite pid _ _ _ t (compute_err_no_ts co e h) hs

/-- Witness for C6: a 403 accessNotConfigured HttpError in the Compute
probe yields the entry "Compute: API not enabled" in the issue list
while the Storage timestamp 5 still wins the record. -/
theorem c6_issue_collection_witness :
    ("Compute: " ++ "API not enabled") ∈
      collectedIssues (ComputeOutcome.httpError 403 "x accessNotConfigured")
        (StorageOutcome.ok [Bucket.mk 5 none []]) (ApiOutcome.ok false 0) ∧
    (get_project_last_activity "p" none
        (ComputeOutcome.httpError 403 "x accessNotConfigured")
        (StorageOutcome.ok [Bucket.mk 5 none []])
        (ApiOutcome.ok false 0)).last_activity_date = some 5 ∧
    (get_project_last_activity "p" none
        (ComputeOutcome.httpError 403 "x accessNotConfigured")
        (StorageOutcome.ok [Bucket.mk 5 none []])
        (ApiOutcome.ok false 0)).activity_source = "Cloud Storage" := by
  have h := c6_issue_collection "p" (.httpError 403 "x accessNotConfigured")
    (.ok [Bucket.mk 5 none []]) (.ok false 0) "API not enabled" 5
  refine ⟨h.2.1 (by decide) (by decide), ?_, ?_⟩
  · exact (h.2.2.2.2 (by decide) (by decide)).1
  · exact (h.2.2.2.2 (by decide) (by decide)).2

/-- C7: whenever an unexpected exception escapes the aggregation
sequence, the top-level handler still returns a record for the project,
with a null date, source "Error", and the exception's message as the
access issues. -/
theorem c7_error_path_returns_record (pid msg : String) (co : ComputeOutcome)
    (so : StorageOutcome) (ao : ApiOutcome) :
    get_project_last_activity pid (some msg) co so ao =
      { project_id := pid, last_activity_date := none,
        activity_source := "Error", access_issues := some msg } := rfl

/-- C8: for every record, a present date renders as the formatted
timestamp in the date cell and as the floor day-difference from now in
the Days Since Activity cell (exactly 10 for a date exactly 10 days
before now); an absent date renders as "No activity found" and "N/A". -/
theorem c8_report_cells (now : Int) (p : Activity) (d : Int) :
    (p.last_activity_date = some d →
       (reportRow now p).getD 1 CellValue.empty = CellValue.str (formatTimestamp d) ∧
       (reportRow now p).getD 3 CellValue.empty = CellValue.int (daysSince now d) ∧
       (d = now - 10 * 86400 →
         (reportRow now p).getD 3 CellValue.empty = CellValue.int 10)) ∧
    (p.last_activity_date = none →
       (reportRow now p).getD 1 CellValue.empty = CellValue.str "No activity found" ∧
       (reportRow now p).getD 3 CellValue.empty = CellValue.str "N/A") := by
  constructor
  · intro h
    refine ⟨by simp [reportRow, h], by simp [reportRow, h], ?_⟩
    intro hd
    subst hd
    have harg : now - (now - 10 * 86400) = 864000 := by ring
    simp [reportRow, h, daysSince, harg]
  · intro h
    exact ⟨by simp [reportRow, h], by simp [reportRow, h]⟩

/-- Witness for C8: a record dated 2025-06-01 00:00:00 UTC (epoch
1748736000) written when now is exactly 10 days later renders as that
formatted timestamp with integer day count 10; a dateless record renders
as "No activity found" and "N/A". -/
theorem c8_report_cells_witness :
    (reportRow 1749600000 (Activity.mk "p" (some 1748736000) "Cloud Storage"
        none)).getD 1 CellValue.empty = CellValue.str "2025-06-01 00:00:00" ∧
    (reportRow 1749600000 (Activity.mk "p" (some 1748736000) "Cloud Storage"
        none)).getD 3 CellValue.empty = CellValue.int 10 ∧
    (reportRow 1749600000 (Activity.mk "q" none "None" none)).getD 1 CellValue.empty =
      CellValue.str "No activity found" ∧
    (reportRow 1749600000 (Activity.mk "q" none "None" none)).getD 3 CellValue.empty =
      CellValue.str "N/A" := by
  have h := (c8_report_cells 1749600000
    (Activity.mk "p" (some 1748736000) "Cloud Storage" none) 1748736000).1 rfl
  have h' := (c8_report_cells 1749600000
    (Activity.mk "q" none "None" none) 0).2 rfl
  refine ⟨?_, h.2.2 (by decide), h'.1, h'.2⟩
  rw [h.1]
  decide

/-- One width-loop step over the string-length maximum, with the
non-string cells dropped by the swallowed `TypeError`. -/
theorem widthStep_foldl (cells : List CellValue) (m : Nat) :
    cells.foldl widthStep m =
      (cells.filterMap fun c =>
        match c with
        | CellValue.str s => some s.length
        | _ => none).foldl max m := by
  induction cells generalizing m with
  | nil => rfl
  | cons c cs ih =>
      cases c with
      | str s =>
          have hstep : widthStep m (CellValue.str s) = max m s.length := by
            simp only [widthStep, lenStr]
            rw [Nat.max_def]
            split <;> split <;> omega
          simp only [List.foldl_cons, List.filterMap_cons, hstep, ih]
      | int n =>
          have hstep : widthStep m (CellValue.int n) = m := by
            simp [widthStep]
          simp only [List.foldl_cons, List.filterMap_cons, hstep, ih]
      | empty =>
          have hstep : widthStep m CellValue.empty = m := by
            simp [widthStep]
          simp only [List.foldl_cons, List.filterMap_cons, hstep, ih]

/-- The code's column width is 2 plus the longest string-typed cell
length: the width pass measures string cells only, because its
`len(cell.value)` raises `TypeError` on other values and the bare
`except: pass` leaves the maximum unchanged. -/
theorem adjustedWidth_eq_maxStrLen (cells : List CellValue) :
    adjustedWidth cells = maxStrLen cells + 2 := by
  unfold adjustedWidth maxStrLen
  rw [widthStep_foldl]

/-- A fold of `max` is bounded by any bound on its inputs. -/
theorem foldl_max_le (l : List Nat) (a b : Nat) (ha : a ≤ b)
    (h : ∀ x ∈ l, x ≤ b) : l.foldl max a ≤ b := by
  induction l generalizing a with
  | nil => exact ha
  | cons x xs ih =>
      exact ih (max a x) (Nat.max_le.2 ⟨ha, h x (by simp)⟩)
        (fun y hy => h y (by simp [hy]))

/-- The accumulator never decreases under a fold of `max`. -/
theorem foldl_max_init_le (l : List Nat) (a : Nat) : a ≤ l.foldl max a := by
  induction l generalizing a with
  | nil => exact Nat.le_refl a
  | cons x xs ih => exact Nat.le_trans (Nat.le_max_left a x) (ih (max a x))

/-- Every input of a fold of `max` is bounded by the fold. -/
theorem mem_le_foldl_max (l : List Nat) (a x : Nat) (hx : x ∈ l) :
    x ≤ l.foldl max a := by
  induction l generalizing a with
  | nil => cases hx
  | cons y ys ih =>
      rcases List.mem_cons.1 hx with h | h
      · subst h
        exact Nat.le_trans (Nat.le_max_right a x) (foldl_max_init_le ys (max a x))
      · exact ih (max a y) h

/-- The code's width agrees with the longest-rendered-value width on
every column in which no integer cell renders longer than the longest
string cell (unwritten cells render as nothing and never dominate a
column that holds its string header). -/
theorem widths_eq_of_int_le (cells : List CellValue)
    (h : ∀ n, CellValue.int n ∈ cells → (toString n).length ≤ maxStrLen cells) :
    adjustedWidth cells = specRenderedWidth cells := by
  rw [adjustedWidth_eq_maxStrLen]
  unfold specRenderedWidth
  congr 1
  apply Nat.le_antisymm
  · apply foldl_max_le _ 0 _ (Nat.zero_le _)
    intro x hx
    obtain ⟨c, hc, heq⟩ := List.mem_filterMap.1 hx
    cases c with
    | str s =>
        simp only [Option.some.injEq] at heq
        subst heq
        exact mem_le_foldl_max _ 0 _ (List.mem_map.2 ⟨CellValue.str s, hc, rfl⟩)
    | int n => simp at heq
    | empty => simp at heq
  · apply foldl_max_le _ 0 _ (Nat.zero_le _)
    intro x hx
    obtain ⟨c, hc, rfl⟩ := List.mem_map.1 hx
    cases c with
    | str s =>
        exact mem_le_foldl_max _ 0 _
          (List.mem_filterMap.2 ⟨CellValue.str s, hc, rfl⟩)
    | int n => exact h n hc
    | empty => exact Nat.zero_le _

/-- Decimal rendering of an integer strictly between -10^7 and 10^7
takes at most 8 characters (7 digits and a possible sign). -/
theorem int_toString_length_le_8 (n : Int) (hlo : -10000000 < n)
    (hhi : n < 10000000) : (toString n).length ≤ 8 := by
  have h7 : (10 : Nat) ^ 7 = 10000000 := by norm_num
  cases n with
  | ofNat m =>
      have hm : m < 10 ^ 7 := by
        rw [h7]
        have : (m : Int) < 10000000 := hhi
        omega
      have := Nat.repr_length m 7 (by norm_num) hm
      calc (toString (Int.ofNat m)).length = (Nat.repr m).length := rfl
        _ ≤ 7 := this
        _ ≤ 8 := by omega
  | negSucc m =>
      have hm : m + 1 < 10 ^ 7 := by
        rw [h7]
        rw [Int.negSucc_eq] at hlo
        omega
      have hrep := Nat.repr_length (m + 1) 7 (by norm_num) hm
      have : (toString (Int.negSucc m)).length = 1 + (Nat.repr (m + 1)).length := by
        show ("-" ++ toString (m + 1)).length = 1 + (Nat.repr (m + 1)).length
        rw [String.length_append]
        rfl
      omega

/-- Day counts between timestamps in the Python-datetime range (years
1 to 9999) stay strictly inside (-10^7, 10^7). -/
theorem daysSince_bound (now d : Int)
    (hn1 : pyMinTimestamp ≤ now) (hn2 : now ≤ pyMaxTimestamp)
    (hd1 : pyMinTimestamp ≤ d) (hd2 : d ≤ pyMaxTimestamp) :
    -10000000 < daysSince now d ∧ daysSince now d < 10000000 := by
  simp only [pyMinTimestamp, pyMaxTimestamp] at hn1 hn2 hd1 hd2
  unfold daysSince
  rw [Int.fdiv_eq_ediv _ (by norm_num)]
  have hlo : (-315537897599 : Int) ≤ now - d := by omega
  have hhi : now - d ≤ (315537897599 : Int) := by omega
  have h1 := Int.ediv_le_ediv (by norm_num : (0:Int) < 86400) hlo
  have h2 := Int.ediv_le_ediv (by norm_num : (0:Int) < 86400) hhi
  have hv1 : (-315537897599 : Int) / 86400 = -3652059 := by decide
  have hv2 : (315537897599 : Int) / 86400 = 3652058 := by decide
  rw [hv1] at h1
  rw [hv2] at h2
  omega

/-- C9: for every sheet the program can write — all dates and the
write-time now are Python datetimes, whose epoch seconds lie between
`pyMinTimestamp` (0001-01-01) and `pyMaxTimestamp` (9999-12-31) — every
column's width equals the length of the longest rendered cell value in
that column plus the 2-character margin, whatever the types of the
cells: the day-count integers render in at most 8 characters, below the
19-character "Days Since Activity" header string the pass does measure,
and unwritten cells render as nothing. -/
theorem c9_column_width_matches_longest_rendered (now : Int) (ps : List Activity)
    (hnow : pyMinTimestamp ≤ now ∧ now ≤ pyMaxTimestamp)
    (hps : ∀ p ∈ ps, ∀ d, p.last_activity_date = some d →
        pyMinTimestamp ≤ d ∧ d ≤ pyMaxTimestamp) :
    ∀ col ∈ sheetColumns now ps, adjustedWidth col = specRenderedWidth col := by
  intro col hcol
  obtain ⟨j, hj, rfl⟩ := List.mem_map.1 hcol
  apply widths_eq_of_int_le
  intro n hn
  rcases List.mem_cons.1 hn with hhd | htl
  · exact absurd hhd (by simp)
  · obtain ⟨p, hp, hcell⟩ := List.mem_map.1 htl
    have hj5 : j < 5 := List.mem_range.1 hj
    interval_cases j
    · simp [reportRow] at hcell
    · rcases hdate : p.last_activity_date with _ | d <;>
        simp [reportRow, hdate] at hcell
    · simp [reportRow] at hcell
    · rcases hdate : p.last_activity_date with _ | d
      · simp [reportRow, hdate] at hcell
      · simp [reportRow, hdate] at hcell
        have hd := hps p hp d hdate
        have hb := daysSince_bound now d hnow.1 hnow.2 hd.1 hd.2
        have hlen : (toString n).length ≤ 8 := by
          rw [← hcell]
          exact int_toString_length_le_8 _ hb.1 hb.2
        have hmem : "Days Since Activity".length ∈
            ((CellValue.str (headers.getD 3 "") ::
              List.map (fun p => (reportRow now p).getD 3 CellValue.empty) ps).filterMap
              (fun c => match c with
                | CellValue.str s => some s.length
                | _ => none)) := by
          have hh : headers.getD 3 "" = "Days Since Activity" := rfl
          rw [hh]
          simp [List.filterMap_cons]
        have h19 : "Days Since Activity".length ≤
            maxStrLen (CellValue.str (headers.getD 3 "") ::
              List.map (fun p => (reportRow now p).getD 3 CellValue.empty) ps) := by
          unfold maxStrLen
          exact mem_le_foldl_max _ 0 _ hmem
        have h19v : ("Days Since Activity").length = 19 := rfl
        omega
    · rcases hiss : p.access_issues with _ | s
      · simp [reportRow, hiss] at hcell
      · by_cases hemp : s = "" <;> simp [reportRow, hiss, hemp] at hcell

/-- Witness for C9: a sheet written at a real timestamp for a record
dated 2025-06-01: the Days Since Activity column (header string, integer
day count) has its code width equal to its longest-rendered width. -/
theorem c9_column_width_matches_longest_rendered_witness :
    adjustedWidth ((sheetColumns 1749600000
        [Activity.mk "p" (some 1748736000) "Cloud Storage" none]).getD 3 []) =
      specRenderedWidth ((sheetColumns 1749600000
        [Activity.mk "p" (some 1748736000) "Cloud Storage" none]).getD 3 []) := by
  have h := c9_column_width_matches_longest_rendered 1749600000
    [Activity.mk "p" (some 1748736000) "Cloud Storage" none]
    (by constructor <;> decide)
    (by
      intro p hp d hd
      simp only [List.mem_singleton] at hp
      subst hp
      simp only [Option.some.injEq] at hd
      constructor <;> (rw [← hd]; decide))
  exact h _ (by decide)

/-- Every collected issue string has positive length: each carries one
of the source-name prefixes. -/
theorem aggIssues_pos (c s a : Option Int × Option String) :
    ∀ x ∈ aggIssuesR c s a, 0 < x.length := by
  have h2 : ∀ x ∈ appendIssue (appendIssue [] "Compute: " c.2) "Storage: " s.2,
      0 < x.length :=
    appendIssue_pos _ _ _ (appendIssue_pos _ _ _ (by simp) (by decide)) (by decide)
  unfold aggIssuesR
  split
  · exact appendIssue_pos _ _ _ h2 (by decide)
  · exact h2

/-- On the normal path, `access_issues` is `None` or a non-empty join of
prefixed issue strings. -/
theorem agg_issues_shape (pid : String) (c s a : Option Int × Option String) :
    (aggregateResults pid c s a).access_issues = none ∨
      ∃ str, (aggregateResults pid c s a).access_issues = some str ∧ str ≠ "" := by
  rw [agg_access_issues_join]
  by_cases hne : aggIssuesR c s a = []
  · left
    simp [hne]
  · right
    refine ⟨joinSemi (aggIssuesR c s a), by simp [hne], ?_⟩
    exact ne_empty_of_pos _ (joinSemi_pos _ (aggIssues_pos c s a) hne)

/-- C10 counterexample: on the error path the record's `access_issues`
is `str(e)` verbatim, and an exception whose message is empty makes it
the EMPTY string, contradicting the claim that `access_issues` is never
the empty string. -/
theorem c10_empty_message_on_error_path :
    (get_project_last_activity "p" (some "") (ComputeOutcome.ok [])
       (StorageOutcome.ok []) (ApiOutcome.ok false 0)).access_issues = some "" := rfl

/-- C10 as amended: both paths produce an Activity record with exactly
the four fields of the `Activity` structure; on the normal path
`access_issues` is `None` (no invoked probe reported a truthy error) or
a non-empty string, while on the error path it is the exception's
message verbatim, which is the empty string exactly when that message is
empty. -/
theorem c10_record_shape (pid : String) (raised : Option String)
    (co : ComputeOutcome) (so : StorageOutcome) (ao : ApiOutcome) :
    (raised = none →
       (get_project_last_activity pid raised co so ao).access_issues = none ∨
       ∃ s, (get_project_last_activity pid raised co so ao).access_issues = some s ∧
         s ≠ "") ∧
    (∀ msg, raised = some msg →
       get_project_last_activity pid raised co so ao =
         { project_id := pid, last_activity_date := none,
           activity_source := "Error", access_issues := some msg }) := by
  constructor
  · intro h
    subst h
    exact agg_issues_shape pid _ _ _
  · intro msg h
    subst h
    rfl

/-- Witness for C10: the normal path with a failing Compute probe gives
a non-empty (or null) issue string, and the error path reproduces the
message "x". -/
theorem c10_record_shape_witness :
    ((get_project_last_activity "p" none (ComputeOutcome.exn "boom")
        (StorageOutcome.ok []) (ApiOutcome.ok false 0)).access_issues = none ∨
      ∃ s, (get_project_last_activity "p" none (ComputeOutcome.exn "boom")
        (StorageOutcome.ok []) (ApiOutcome.ok false 0)).access_issues = some s ∧
        s ≠ "") ∧
    get_project_last_activity "p" (some "x") (ComputeOutcome.ok [])
        (StorageOutcome.ok []) (ApiOutcome.ok false 0) =
      { project_id := "p", last_activity_date := none,
        activity_source := "Error", access_issues := some "x" } := by
  constructor
  · exact (c10_record_shape "p" none (.exn "boom") (.ok []) (.ok false 0)).1 rfl
  · exact (c10_record_shape "p" (some "x") (.ok []) (.ok [])
      (.ok false 0)).2 "x" rfl

end GcpActivity
